import Mathlib

/-!
# Verification of the Moonraker Host Scanner discovery-and-health pipeline

Shallow embedding of the Rust sources under `src/src-tauri/src/`:
CIDR expansion (`network/ip_utils.rs`), host probing and scan orchestration
(`network/scanner.rs`), API probing (`api/moonraker.rs`), the status
resolver (`models/api.rs`) and the host-record lifecycle (`models/host.rs`).

Conventions of the embedding:
* Rust machine integers become `Nat`, with an explicit `% 2 ^ 32` where a
  `u32` may wrap (the consecutive-failure counter).
* Effectful calls (TCP port probe, HTTP GET) become oracle functions packed
  in a `ProbeEnv`; the retrying API call is an oracle indexed by the attempt
  number, so each retry may observe a different outcome.
* `Result<T, MoonrakerError>` becomes `Except MoonrakerError T`.
* `chrono::Utc::now().to_rfc3339()` becomes an explicit `now : String`
  argument.
-/

namespace MHS

/-- Error taxonomy of `error.rs` (`MoonrakerError`); payloads of external
error types (`reqwest::Error`, `Duration`) are modelled as the strings /
numbers they carry. -/
inductive MoonrakerError where
  | Network (msg : String)
  | InvalidIp (s : String)
  | InvalidSubnet (s : String)
  | Timeout (ms : Nat)
  | Api (msg : String)
  | HostNotFound (s : String)
  | SystemCommand (s : String)
deriving DecidableEq, Repr

/-- The ten printer status flags of `models/api.rs` (`PrinterFlags`). -/
structure PrinterFlags where
  operational : Bool
  paused : Bool
  printing : Bool
  cancelling : Bool
  pausing : Bool
  resuming : Bool
  sd_ready : Bool
  error : Bool
  ready : Bool
  closed_or_error : Bool
deriving DecidableEq, Repr

/-- `PrinterFlags::get_status` of `models/api.rs` lines 106-120, including
the redundant `ready` branch of the source (both of the last branches
return `"standby"`). -/
def PrinterFlags.get_status (f : PrinterFlags) : String :=
  if f.cancelling then "cancelling"
  else if f.error then "error"
  else if f.paused then "paused"
  else if f.printing then "printing"
  else if f.ready then "standby"
  else "standby"

/-- `ServerInfoResult` of `models/api.rs`. -/
structure ServerInfoResult where
  klippy_connected : Bool
  klippy_state : String
  components : List String
  failed_components : List String
  registered_directories : List String
  warnings : List String
  websocket_count : Int
  moonraker_version : String
  api_version : List Int
  api_version_string : Option String
  missing_klippy_requirements : Option (List String)
deriving DecidableEq, Repr

/-- `MoonrakerServerInfo` of `models/api.rs`. -/
structure MoonrakerServerInfo where
  result : ServerInfoResult
deriving DecidableEq, Repr

/-- `PrinterInfoResult` of `models/api.rs`. -/
structure PrinterInfoResult where
  state : String
  state_message : String
  hostname : Option String
  software_version : Option String
  cpu_info : Option String
  klipper_path : Option String
  python_path : Option String
  log_file : Option String
  config_file : Option String
deriving DecidableEq, Repr

/-- `MoonrakerPrinterInfo` of `models/api.rs`. -/
structure MoonrakerPrinterInfo where
  result : PrinterInfoResult
deriving DecidableEq, Repr

/-- `HostInfo` of `models/host.rs`: the record kept per discovered host.
`failed_attempts` is a Rust `Option<u32>`, modelled as `Option Nat` whose
arithmetic wraps at `2 ^ 32`. -/
structure HostInfo where
  id : String
  hostname : String
  original_hostname : String
  ip_address : String
  subnet : String
  status : String
  device_status : String
  moonraker_version : Option String
  klippy_state : Option String
  printer_state : Option String
  printer_flags : Option PrinterFlags
  last_seen : Option String
  failed_attempts : Option Nat
deriving DecidableEq, Repr

/-- `HostInfo::update_online` of `models/host.rs` lines 66-84: mark online,
store version / Klippy state / flags, recompute the device status only when
a flag set is present, stamp `last_seen`, reset the failure counter. -/
def HostInfo.update_online (h : HostInfo) (moonraker_version : String)
    (klippy_state : String) (printer_flags : Option PrinterFlags)
    (now : String) : HostInfo :=
  let h1 := { h with
    status := "online"
    moonraker_version := some moonraker_version
    klippy_state := some klippy_state
    printer_flags := printer_flags }
  let h2 := match printer_flags with
    | some flags =>
        { h1 with
          device_status := flags.get_status
          printer_state := some flags.get_status }
    | none => h1
  { h2 with last_seen := some now, failed_attempts := some 0 }

/-- `HostInfo::update_offline` of `models/host.rs` lines 87-95: increment
the `u32` failure counter (wrapping at `2 ^ 32`) and mark the host offline
once it reaches 3. -/
def HostInfo.update_offline (h : HostInfo) : HostInfo :=
  let failed_attempts := (h.failed_attempts.getD 0 + 1) % 2 ^ 32
  let h1 := { h with failed_attempts := some failed_attempts }
  if 3 ≤ failed_attempts then { h1 with status := "offline" } else h1

/-- `SubnetConfig` of `models/host.rs`. -/
structure SubnetConfig where
  id : String
  range : String
  name : String
  enabled : Bool
deriving DecidableEq, Repr

/-- `ScanResult` of `models/host.rs`. -/
structure ScanResult where
  hosts : List HostInfo
  total_hosts : Nat
  online_hosts : Nat
  scan_progress : Nat
deriving DecidableEq, Repr

/-- `HostStatusResponse` of `models/host.rs`. -/
structure HostStatusResponse where
  success : Bool
  status : String
  device_status : Option String
  moonraker_version : Option String
  klippy_state : Option String
  printer_state : Option String
  printer_flags : Option PrinterFlags
deriving DecidableEq, Repr

/-- `API_SCAN_RETRY_COUNT` of `models/config.rs`. -/
def API_SCAN_RETRY_COUNT : Nat := 3

/-- A `serde_json::Value`, as far as the embedded code inspects it. -/
inductive Json where
  | null
  | bool (b : Bool)
  | num (n : Int)
  | str (s : String)
  | arr (xs : List Json)
  | obj (fields : List (String × Json))

/-- `serde_json::Value::get` with a string key: field lookup on an object,
`None` on every other value. -/
def Json.get : Json → String → Option Json
  | .obj fields, key => fields.lookup key
  | _, _ => none

/-- The default `ServerInfoResult` fabricated by `check_moonraker_api`
(`api/moonraker.rs` lines 29-43) when the response body does not parse. -/
def defaultServerInfo : MoonrakerServerInfo :=
  { result :=
    { klippy_connected := false
      klippy_state := "disconnected"
      components := []
      failed_components := []
      registered_directories := []
      warnings := []
      websocket_count := 0
      moonraker_version := "unknown"
      api_version := [1, 0, 0]
      api_version_string := none
      missing_klippy_requirements := none } }

/-- The default flag set fabricated by `get_printer_flags`
(`api/moonraker.rs` lines 120-162) in all three fallback branches. -/
def defaultFlags : PrinterFlags :=
  { operational := false
    paused := false
    printing := false
    cancelling := false
    pausing := false
    resuming := false
    sd_ready := false
    error := false
    ready := true
    closed_or_error := false }

/-- `check_moonraker_api` of `api/moonraker.rs` lines 22-46.  `endpoint`
is the outcome of `get_moonraker_endpoint(host, "server/info")` and
`parseServerInfo` models `serde_json::from_value` (an external library
call): transport errors propagate, parse failures are replaced by the
fabricated `defaultServerInfo`. -/
def check_moonraker_api (endpoint : Except MoonrakerError Json)
    (parseServerInfo : Json → Option MoonrakerServerInfo) :
    Except MoonrakerError MoonrakerServerInfo :=
  match endpoint with
  | .error e => .error e
  | .ok data =>
    match parseServerInfo data with
    | some server_info => .ok server_info
    | none => .ok defaultServerInfo

/-- `get_printer_flags` of `api/moonraker.rs` lines 109-164.  `endpoint` is
the outcome of `get_moonraker_endpoint(host, "api/printer")` and
`parseFlags` models `serde_json::from_value` on the nested `state.flags`
object: transport errors propagate; a missing `state`, a missing `flags`,
or a parse failure each yield the fabricated `defaultFlags`. -/
def get_printer_flags (endpoint : Except MoonrakerError Json)
    (parseFlags : Json → Option PrinterFlags) :
    Except MoonrakerError PrinterFlags :=
  match endpoint with
  | .error e => .error e
  | .ok data =>
    match data.get "state" with
    | some state =>
      match state.get "flags" with
      | some flags =>
        match parseFlags flags with
        | some printer_flags => .ok printer_flags
        | none => .ok defaultFlags
      | none => .ok defaultFlags
    | none => .ok defaultFlags

/-- Oracle environment for one scan: the outcomes of the effectful probes,
per IP address.  `api` is additionally indexed by the retry attempt number
(`scan_host` / `check_host_status` call `check_moonraker_api` up to
`API_SCAN_RETRY_COUNT` times). -/
structure ProbeEnv where
  portOpen : String → Bool
  api : String → Nat → Except MoonrakerError MoonrakerServerInfo
  printerInfo : String → Except MoonrakerError MoonrakerPrinterInfo
  flags : String → Except MoonrakerError PrinterFlags

/-- The retry loop of `scan_host` (`network/scanner.rs` lines 34-80) over
the list of remaining attempt indices: the first successful liveness call
builds the host record (hostname from `get_printer_info` with the IP as
fallback, flags from `get_printer_flags` kept optional, status resolved
from the flags with `"standby"` as the no-flags default). -/
def scanHostAttempts (env : ProbeEnv) (ip now : String) :
    List Nat → Option HostInfo
  | [] => none
  | attempt :: rest =>
    match env.api ip attempt with
    | .ok server_info =>
      let hostname := match env.printerInfo ip with
        | .ok printer_info => printer_info.result.hostname.getD ip
        | .error _ => ip
      let printer_flags := match env.flags ip with
        | .ok flags => some flags
        | .error _ => none
      let printer_state := match printer_flags with
        | some flags => flags.get_status
        | none => "standby"
      some
        { id := ip
          hostname := hostname
          original_hostname := hostname
          ip_address := ip
          subnet := ""
          status := "online"
          device_status := printer_state
          moonraker_version := some server_info.result.moonraker_version
          klippy_state := some server_info.result.klippy_state
          printer_state := some printer_state
          printer_flags := printer_flags
          last_seen := some now
          failed_attempts := some 0 }
    | .error _ => scanHostAttempts env ip now rest

/-- `scan_host` of `network/scanner.rs` lines 27-83: port gate first, then
the liveness retry loop. -/
def scan_host (env : ProbeEnv) (ip now : String) : Option HostInfo :=
  if env.portOpen ip then
    scanHostAttempts env ip now (List.range API_SCAN_RETRY_COUNT)
  else
    none

/-- The all-`None` offline response built by `check_host_status` both when
the port is closed and when every liveness attempt failed
(`network/scanner.rs` lines 95-103 and 161-169). -/
def offlineResponse : HostStatusResponse :=
  { success := false
    status := "offline"
    device_status := none
    moonraker_version := none
    klippy_state := none
    printer_state := none
    printer_flags := none }

/-- The retry loop of `check_host_status` (`network/scanner.rs` lines
107-159): on a successful liveness call, a `klippy_state` of
`"disconnected"` short-circuits to an offline response; otherwise the
response is online with the status resolved from the optional flags. -/
def checkHostAttempts (env : ProbeEnv) (ip : String) :
    List Nat → HostStatusResponse
  | [] => offlineResponse
  | attempt :: rest =>
    match env.api ip attempt with
    | .ok server_info =>
      if server_info.result.klippy_state = "disconnected" then
        { success := false
          status := "offline"
          device_status := some "klippy_disconnected"
          moonraker_version := some server_info.result.moonraker_version
          klippy_state := some server_info.result.klippy_state
          printer_state := some "offline"
          printer_flags := none }
      else
        let printer_flags := match env.flags ip with
          | .ok flags => some flags
          | .error _ => none
        let printer_state := match printer_flags with
          | some flags => flags.get_status
          | none => "standby"
        { success := true
          status := "online"
          device_status := some printer_state
          moonraker_version := some server_info.result.moonraker_version
          klippy_state := some server_info.result.klippy_state
          printer_state := some printer_state
          printer_flags := printer_flags }
    | .error _ => checkHostAttempts env ip rest

/-- `check_host_status` of `network/scanner.rs` lines 92-170. -/
def check_host_status (env : ProbeEnv) (ip : String) : HostStatusResponse :=
  if env.portOpen ip then
    checkHostAttempts env ip (List.range API_SCAN_RETRY_COUNT)
  else
    offlineResponse

/-- An IPv4 network as parsed by `ipnetwork::IpNetwork::from_str` (an
external library; host bits may be set): a 32-bit address and a mask
length `prefixLen ≤ 32`. -/
structure Ipv4Net where
  ip : Nat
  prefixLen : Nat
deriving DecidableEq, Repr

/-- Number of addresses covered by the network: `2 ^ (32 - prefixLen)`. -/
def Ipv4Net.size (net : Ipv4Net) : Nat := 2 ^ (32 - net.prefixLen)

/-- `Ipv4Network::network()`: the address with the host bits cleared.
`ip & mask` equals `ip - ip % 2 ^ hostBits` on 32-bit values. -/
def Ipv4Net.network (net : Ipv4Net) : Nat := net.ip - net.ip % net.size

/-- `Ipv4Network::broadcast()`: `network | !mask`, i.e. the host bits all
set. -/
def Ipv4Net.broadcast (net : Ipv4Net) : Nat := net.network + (net.size - 1)

/-- `Ipv4Network::iter()`: every address of the network in ascending
order, starting at the network address. -/
def Ipv4Net.iter (net : Ipv4Net) : List Nat :=
  (List.range net.size).map (fun i => net.network + i)

/-- The address codes kept by `generate_ip_range`: all addresses of the
network except the network and broadcast addresses
(`network/ip_utils.rs` lines 20-26). -/
def ipRangeAddrs (net : Ipv4Net) : List Nat :=
  net.iter.filter (fun a => decide (a ≠ net.network ∧ a ≠ net.broadcast))

/-- Dotted-quad rendering of a 32-bit address code, the
`Ipv4Addr::to_string()` of the Rust source. -/
def ipv4ToString (a : Nat) : String :=
  toString (a / 2 ^ 24 % 256) ++ "." ++ toString (a / 2 ^ 16 % 256) ++ "." ++
    toString (a / 2 ^ 8 % 256) ++ "." ++ toString (a % 256)

/-- `generate_ip_range` of `network/ip_utils.rs` lines 16-28 (IPv4 path):
parse the CIDR string (`parse` models `ipnetwork::IpNetwork::from_str`,
whose error text is wrapped in `InvalidSubnet`), then keep every address
except the network and broadcast addresses, rendered as strings. -/
def generate_ip_range (parse : String → Except String Ipv4Net)
    (subnet : String) : Except MoonrakerError (List String) :=
  match parse subnet with
  | .error e => .error (.InvalidSubnet e)
  | .ok network => .ok ((ipRangeAddrs network).map ipv4ToString)

/-- The subnet-expansion loop of `scan_network` (`network/scanner.rs`
lines 195-208), run in full before any probing: the accumulated candidate
count (`total_ips`) and the (ip, subnet range) pairs in insertion order;
the first invalid subnet aborts with its `InvalidSubnet` error. -/
def collectIps (parse : String → Except String Ipv4Net) :
    List SubnetConfig → Except MoonrakerError (Nat × List (String × String))
  | [] => .ok (0, [])
  | s :: rest =>
    match generate_ip_range parse s.range with
    | .error e => .error e
    | .ok ips =>
      match collectIps parse rest with
      | .error e => .error e
      | .ok (total, pairs) =>
        .ok (ips.length + total, ips.map (fun ip => (ip, s.range)) ++ pairs)

/-- `ip_subnet_map.get(&ip).unwrap_or("")`: the map is a `HashMap` built
by insertions in pair order, so the last insertion for a key wins. -/
def lookupSubnet (pairs : List (String × String)) (ip : String) : String :=
  (pairs.reverse.lookup ip).getD ""

/-- Phase 2 of `scan_network` (`network/scanner.rs` lines 222-244): probe
each open-port address with `scan_host`, fill in its subnet label, keep
successful records in address order and count them.  The source processes
the list in chunks of `API_SCAN_CONCURRENCY` joined per chunk; with pure
per-address oracles the chunked loop computes the same list, so the
embedding is flat. -/
def apiPhase (env : ProbeEnv) (now : String)
    (pairs : List (String × String)) : List String → List HostInfo × Nat
  | [] => ([], 0)
  | ip :: rest =>
    let r := apiPhase env now pairs rest
    match scan_host env ip now with
    | some h => ({ h with subnet := lookupSubnet pairs ip } :: r.1, r.2 + 1)
    | none => r

/-- `scan_network` of `network/scanner.rs` lines 179-252.  Phase 1
(`scan_multiple_ips_for_moonraker`, `port_checker.rs` lines 129-153)
returns a `HashMap` keyed by IP, so duplicate candidate addresses
collapse to one key; its iteration order is unspecified in Rust and is
modelled here as the `dedup` order of the candidate list.  The
`total_hosts` count, by contrast, is accumulated before deduplication. -/
def scan_network (parse : String → Except String Ipv4Net) (env : ProbeEnv)
    (now : String) (subnets : List SubnetConfig) :
    Except MoonrakerError ScanResult :=
  let enabled := subnets.filter (fun s => s.enabled)
  if enabled.isEmpty then
    .ok { hosts := [], total_hosts := 0, online_hosts := 0,
          scan_progress := 100 }
  else
    match collectIps parse enabled with
    | .error e => .error e
    | .ok (total_ips, pairs) =>
      let all_ips := pairs.map Prod.fst
      let hosts_with_open_port :=
        all_ips.dedup.filter (fun ip => env.portOpen ip)
      let phase2 := apiPhase env now pairs hosts_with_open_port
      .ok { hosts := phase2.1, total_hosts := total_ips,
            online_hosts := phase2.2, scan_progress := 100 }

/-- Number of candidate addresses one subnet contributes to a scan. -/
def expandedLen (parse : String → Except String Ipv4Net)
    (s : SubnetConfig) : Nat :=
  match generate_ip_range parse s.range with
  | .ok ips => ips.length
  | .error _ => 0

/-- A sample host record used by concrete witnesses. -/
def sampleHost : HostInfo :=
  { id := "192.168.1.10"
    hostname := "voron"
    original_hostname := "voron"
    ip_address := "192.168.1.10"
    subnet := "192.168.1.0/24"
    status := "online"
    device_status := "printing"
    moonraker_version := some "0.8.0"
    klippy_state := some "ready"
    printer_state := some "printing"
    printer_flags := none
    last_seen := some "2026-01-01T00:00:00Z"
    failed_attempts := some 1 }

/-- A liveness result reporting Klippy `"disconnected"`. -/
def disconnectedServerInfo : MoonrakerServerInfo :=
  { result :=
    { klippy_connected := false
      klippy_state := "disconnected"
      components := []
      failed_components := []
      registered_directories := []
      warnings := []
      websocket_count := 0
      moonraker_version := "0.8.0"
      api_version := [1, 0, 0]
      api_version_string := none
      missing_klippy_requirements := none } }

/-- A flag set reporting an active print. -/
def printingFlags : PrinterFlags :=
  { operational := true
    paused := false
    printing := true
    cancelling := false
    pausing := false
    resuming := false
    sd_ready := true
    error := false
    ready := false
    closed_or_error := false }

/-- Environment of a reachable host whose liveness call succeeds but
reports Klippy `"disconnected"`, while the flags call reports an active
print. -/
def disconnectedEnv : ProbeEnv :=
  { portOpen := fun _ => true
    api := fun _ _ => .ok disconnectedServerInfo
    printerInfo := fun _ => .error (.Api "no printer info")
    flags := fun _ => .ok printingFlags }

/-- A liveness result with Klippy ready. -/
def readyServerInfo : MoonrakerServerInfo :=
  { result :=
    { klippy_connected := true
      klippy_state := "ready"
      components := ["server"]
      failed_components := []
      registered_directories := []
      warnings := []
      websocket_count := 1
      moonraker_version := "0.9.3"
      api_version := [1, 5, 0]
      api_version_string := some "1.5.0"
      missing_klippy_requirements := none } }

/-- Environment of a reachable host whose liveness succeeds but whose
flags call fails with a network error. -/
def flagsFailEnv : ProbeEnv :=
  { portOpen := fun _ => true
    api := fun _ _ => .ok readyServerInfo
    printerInfo := fun _ => .error (.Api "no printer info")
    flags := fun _ => .error (.Network "timeout") }

/-- Environment in which every probe fails. -/
def deadEnv : ProbeEnv :=
  { portOpen := fun _ => false
    api := fun _ _ => .error (.Network "unreachable")
    printerInfo := fun _ => .error (.Network "unreachable")
    flags := fun _ => .error (.Network "unreachable") }

/-- Environment in which every port is open and every API call succeeds. -/
def liveEnv : ProbeEnv :=
  { portOpen := fun _ => true
    api := fun _ _ => .ok readyServerInfo
    printerInfo := fun _ => .error (.Api "no printer info")
    flags := fun _ => .ok defaultFlags }

/-- Concrete model of `ipnetwork` parsing that accepts one CIDR string. -/
def cidrParse : String → Except String Ipv4Net :=
  fun s =>
    if s = "10.0.0.0/30" then .ok { ip := 167772160, prefixLen := 30 }
    else .error "invalid address syntax"

/-- Scan request with one valid enabled subnet and one invalid enabled
subnet. -/
def subnetsWithBad : List SubnetConfig :=
  [{ id := "a", range := "10.0.0.0/30", name := "lab", enabled := true },
   { id := "b", range := "bogus/99", name := "bad", enabled := true }]

/-- Scan request with one valid enabled subnet and one invalid but
disabled subnet. -/
def goodSubnets : List SubnetConfig :=
  [{ id := "a", range := "10.0.0.0/30", name := "lab", enabled := true },
   { id := "b", range := "bogus/99", name := "bad", enabled := false }]

end MHS

namespace MHS

/-- CLAIM C1: `PrinterFlags::get_status` is a pure function of the flag set
that follows the fixed priority order cancelling > error > paused >
printing > standby; in particular a flag set with both `error` and
`printing` set and `cancelling` unset resolves to `"error"`. -/
theorem get_status_priority_order (f : PrinterFlags) :
    f.get_status =
      (if f.cancelling then "cancelling"
       else if f.error then "error"
       else if f.paused then "paused"
       else if f.printing then "printing"
       else "standby") ∧
    PrinterFlags.get_status
      { f with error := true, printing := true, cancelling := false } =
      "error" := by
  rcases f with ⟨op, pa, pr, ca, pg, re, sd, er, rd, co⟩
  cases ca <;> cases er <;> cases pa <;> cases pr <;> cases rd <;>
    exact ⟨rfl, rfl⟩

/-- COUNTEREXAMPLE to C7 as stated: the failure counter is a `u32`, so at
the maximal counter value `2 ^ 32 - 1` `update_offline` wraps the counter
to 0 instead of setting it to `c + 1` (and consequently does not flip the
status to offline although `c + 1 ≥ 3`). -/
theorem update_offline_wraps_at_u32_max :
    ({ sampleHost with
        status := "online"
        failed_attempts := some (2 ^ 32 - 1) } : HostInfo).update_offline.failed_attempts
      = some 0 ∧
    some (0 : Nat) ≠ some (2 ^ 32 - 1 + 1) ∧
    ({ sampleHost with
        status := "online"
        failed_attempts := some (2 ^ 32 - 1) } : HostInfo).update_offline.status
      = "online" := by
  refine ⟨?_, by decide, ?_⟩ <;>
    simp [HostInfo.update_offline, sampleHost]

/-- CLAIM C7 (amended for `u32` wrap-around): for every host record whose
failure counter `c` is below `2 ^ 32 - 1`, `update_offline` sets the
counter to `c + 1` and sets the connectivity status to `"offline"` exactly
when `c + 1 ≥ 3`, leaving the status untouched when `c + 1 < 3`; and
`update_online` always sets the status to `"online"` and resets the counter
to 0, whatever its previous value. -/
theorem update_offline_update_online_counter (h : HostInfo)
    (hc : h.failed_attempts.getD 0 < 2 ^ 32 - 1) :
    (h.update_offline.failed_attempts = some (h.failed_attempts.getD 0 + 1) ∧
     (3 ≤ h.failed_attempts.getD 0 + 1 → h.update_offline.status = "offline") ∧
     (h.failed_attempts.getD 0 + 1 < 3 → h.update_offline.status = h.status)) ∧
    ∀ (v ks : String) (fl : Option PrinterFlags) (now : String),
      (h.update_online v ks fl now).status = "online" ∧
      (h.update_online v ks fl now).failed_attempts = some 0 := by
  have hc4 : h.failed_attempts.getD 0 < 4294967295 := by
    have h32 : (2 : Nat) ^ 32 - 1 = 4294967295 := by norm_num
    omega
  have hmod : (h.failed_attempts.getD 0 + 1) % 4294967296 =
      h.failed_attempts.getD 0 + 1 := by
    apply Nat.mod_eq_of_lt
    omega
  refine ⟨⟨?_, ?_, ?_⟩, ?_⟩
  · simp [HostInfo.update_offline, hmod]
    split <;> rfl
  · intro h3
    simp [HostInfo.update_offline, hmod]
    split
    · rfl
    · omega
  · intro h3
    simp [HostInfo.update_offline, hmod]
    split
    · omega
    · rfl
  · intro v ks fl now
    cases fl <;> simp [HostInfo.update_online]

/-- WITNESS for C7 at a concrete record with counter 1: the counter becomes
2, the status is untouched (2 < 3), and `update_online` resets. -/
theorem update_offline_update_online_counter_witness :
    (sampleHost.update_offline.failed_attempts = some (1 + 1) ∧
     (3 ≤ 1 + 1 → sampleHost.update_offline.status = "offline") ∧
     (1 + 1 < 3 → sampleHost.update_offline.status = sampleHost.status)) ∧
    ∀ (v ks : String) (fl : Option PrinterFlags) (now : String),
      (sampleHost.update_online v ks fl now).status = "online" ∧
      (sampleHost.update_online v ks fl now).failed_attempts = some 0 := by
  have base := update_offline_update_online_counter sampleHost (by decide)
  simpa [sampleHost] using base

/-- COUNTEREXAMPLE to C5 as stated: on a malformed liveness body (JSON
`null`, which no parser accepts as a `ServerInfoResult`) the probe returns
`Ok` with a fabricated default (`klippy_state "disconnected"`, version
`"unknown"`), not an error; likewise the flags probe fabricates a default
flag set with `ready` true instead of failing. -/
theorem api_parse_failure_fabricates_default :
    check_moonraker_api (.ok .null) (fun _ => none) = .ok defaultServerInfo ∧
    defaultServerInfo.result.klippy_state = "disconnected" ∧
    defaultServerInfo.result.moonraker_version = "unknown" ∧
    get_printer_flags (.ok .null) (fun _ => none) = .ok defaultFlags ∧
    defaultFlags.ready = true :=
  ⟨rfl, rfl, rfl, rfl, rfl⟩

/-- CLAIM C5 (amended): only transport/HTTP failures of the underlying GET
surface as errors; when the response body is malformed or missing the
expected fields, `check_moonraker_api` returns `Ok` with the fabricated
`defaultServerInfo` and `get_printer_flags` never returns an error at all
on a delivered body. -/
theorem api_probe_default_fallback (e : MoonrakerError) (data : Json)
    (parseServerInfo : Json → Option MoonrakerServerInfo)
    (parseFlags : Json → Option PrinterFlags)
    (hp : parseServerInfo data = none) :
    check_moonraker_api (.error e) parseServerInfo = .error e ∧
    check_moonraker_api (.ok data) parseServerInfo = .ok defaultServerInfo ∧
    get_printer_flags (.error e) parseFlags = .error e ∧
    (get_printer_flags (.ok data) parseFlags).isOk = true := by
  refine ⟨rfl, ?_, rfl, ?_⟩
  · simp [check_moonraker_api, hp]
  · cases hs : data.get "state" with
    | none => simp [get_printer_flags, hs, Except.isOk, Except.toBool]
    | some state =>
      cases hf : state.get "flags" with
      | none => simp [get_printer_flags, hs, hf, Except.isOk, Except.toBool]
      | some flags =>
        cases hpf : parseFlags flags <;>
          simp [get_printer_flags, hs, hf, hpf, Except.isOk, Except.toBool]

/-- WITNESS for C5 (amended) at a transport error and a `null` body. -/
theorem api_probe_default_fallback_witness :
    check_moonraker_api (.error (.Api "boom")) (fun _ => none) =
      .error (.Api "boom") ∧
    check_moonraker_api (.ok .null) (fun _ => none) = .ok defaultServerInfo ∧
    get_printer_flags (.error (.Api "boom")) (fun _ => none) =
      .error (.Api "boom") ∧
    (get_printer_flags (.ok .null) (fun _ => none)).isOk = true :=
  api_probe_default_fallback (.Api "boom") .null (fun _ => none)
    (fun _ => none) rfl

/-- COUNTEREXAMPLE to C2 as stated: in the full-scan probe `scan_host`,
a host whose liveness call succeeds with `klippy_state = "disconnected"`
(and whose flags report `printing`) is still classified `"online"` — the
hard offline override exists only in `check_host_status`. -/
theorem scan_host_ignores_klippy_disconnected :
    (scan_host disconnectedEnv "10.0.0.5" "t0").map HostInfo.status =
      some "online" ∧
    (scan_host disconnectedEnv "10.0.0.5" "t0").bind HostInfo.klippy_state =
      some "disconnected" ∧
    (scan_host disconnectedEnv "10.0.0.5" "t0").bind HostInfo.printer_flags =
      some printingFlags ∧
    printingFlags.printing = true :=
  ⟨rfl, rfl, rfl, rfl⟩

/-- Exhausted-or-successful retry loop of `check_host_status` under a
uniformly `"disconnected"` liveness oracle: the first successful attempt
short-circuits to the offline response. -/
theorem checkHostAttempts_disconnected (env : ProbeEnv) (ip : String)
    (l : List Nat)
    (hsucc : ∃ k ∈ l, (env.api ip k).isOk = true)
    (hdisc : ∀ k si, env.api ip k = .ok si →
      si.result.klippy_state = "disconnected") :
    (checkHostAttempts env ip l).success = false ∧
    (checkHostAttempts env ip l).status = "offline" ∧
    (checkHostAttempts env ip l).printer_state = some "offline" := by
  induction l with
  | nil =>
    obtain ⟨k, hk, _⟩ := hsucc
    exact absurd hk (List.not_mem_nil k)
  | cons a rest ih =>
    cases ha : env.api ip a with
    | ok si =>
      have hd := hdisc a si ha
      simp [checkHostAttempts, ha, hd]
    | error err =>
      have hrest : ∃ k ∈ rest, (env.api ip k).isOk = true := by
        obtain ⟨k, hk, hko⟩ := hsucc
        rcases List.mem_cons.mp hk with hka | hkr
        · subst hka
          rw [ha] at hko
          simp [Except.isOk, Except.toBool] at hko
        · exact ⟨k, hkr, hko⟩
      simpa [checkHostAttempts, ha] using ih hrest

/-- CLAIM C2 (amended): the hard `"disconnected"` ⇒ offline override holds
in the per-host status check `check_host_status` (the port and HTTP layer
being reachable and the flags call free to report anything), but not in
the full-scan probe `scan_host`, which classifies such a host online. -/
theorem check_host_status_disconnected_offline (env : ProbeEnv)
    (ip : String)
    (hopen : env.portOpen ip = true)
    (hsucc : ∃ k ∈ List.range API_SCAN_RETRY_COUNT,
      (env.api ip k).isOk = true)
    (hdisc : ∀ k si, env.api ip k = .ok si →
      si.result.klippy_state = "disconnected") :
    (check_host_status env ip).success = false ∧
    (check_host_status env ip).status = "offline" ∧
    (check_host_status env ip).printer_state = some "offline" := by
  have base := checkHostAttempts_disconnected env ip
    (List.range API_SCAN_RETRY_COUNT) hsucc hdisc
  simpa [check_host_status, hopen] using base

/-- WITNESS for C2 (amended) at the concrete disconnected environment. -/
theorem check_host_status_disconnected_offline_witness :
    (check_host_status disconnectedEnv "10.0.0.5").success = false ∧
    (check_host_status disconnectedEnv "10.0.0.5").status = "offline" ∧
    (check_host_status disconnectedEnv "10.0.0.5").printer_state =
      some "offline" :=
  check_host_status_disconnected_offline disconnectedEnv "10.0.0.5" rfl
    ⟨0, by decide, rfl⟩ (fun k si hk => by cases hk; rfl)

/-- Retry loop of `scan_host` when the flags call fails: the produced
record is online with the `"standby"` default and no stored flag set. -/
theorem scanHostAttempts_flags_failed (env : ProbeEnv) (ip now : String)
    (e : MoonrakerError) (l : List Nat)
    (hsucc : ∃ k ∈ l, (env.api ip k).isOk = true)
    (hflags : env.flags ip = .error e) :
    ∃ h, scanHostAttempts env ip now l = some h ∧
      h.status = "online" ∧ h.device_status = "standby" ∧
      h.printer_state = some "standby" ∧ h.printer_flags = none := by
  induction l with
  | nil =>
    obtain ⟨k, hk, _⟩ := hsucc
    exact absurd hk (List.not_mem_nil k)
  | cons a rest ih =>
    cases ha : env.api ip a with
    | ok si =>
      simp only [scanHostAttempts, ha]
      refine ⟨_, rfl, ?_, ?_, ?_, ?_⟩ <;> simp [hflags]
    | error err =>
      have hrest : ∃ k ∈ rest, (env.api ip k).isOk = true := by
        obtain ⟨k, hk, hko⟩ := hsucc
        rcases List.mem_cons.mp hk with hka | hkr
        · subst hka
          rw [ha] at hko
          simp [Except.isOk, Except.toBool] at hko
        · exact ⟨k, hkr, hko⟩
      simpa [scanHostAttempts, ha] using ih hrest

/-- Retry loop of `check_host_status` when Klippy is connected but the
flags call fails: the response is online with the `"standby"` default. -/
theorem checkHostAttempts_flags_failed (env : ProbeEnv) (ip : String)
    (e : MoonrakerError) (l : List Nat)
    (hsucc : ∃ k ∈ l, (env.api ip k).isOk = true)
    (hnd : ∀ k si, env.api ip k = .ok si →
      si.result.klippy_state ≠ "disconnected")
    (hflags : env.flags ip = .error e) :
    (checkHostAttempts env ip l).success = true ∧
    (checkHostAttempts env ip l).status = "online" ∧
    (checkHostAttempts env ip l).device_status = some "standby" ∧
    (checkHostAttempts env ip l).printer_flags = none := by
  induction l with
  | nil =>
    obtain ⟨k, hk, _⟩ := hsucc
    exact absurd hk (List.not_mem_nil k)
  | cons a rest ih =>
    cases ha : env.api ip a with
    | ok si =>
      have hd := hnd a si ha
      simp [checkHostAttempts, ha, hd, hflags]
    | error err =>
      have hrest : ∃ k ∈ rest, (env.api ip k).isOk = true := by
        obtain ⟨k, hk, hko⟩ := hsucc
        rcases List.mem_cons.mp hk with hka | hkr
        · subst hka
          rw [ha] at hko
          simp [Except.isOk, Except.toBool] at hko
        · exact ⟨k, hkr, hko⟩
      simpa [checkHostAttempts, ha] using ih hrest

/-- CLAIM C6: when the liveness call succeeds within the retry budget (and
Klippy is not reported disconnected) but the flags call fails, both
`scan_host` and `check_host_status` classify the host online with device
status `"standby"` and record the flag set as absent. -/
theorem flags_failure_defaults_standby (env : ProbeEnv) (ip now : String)
    (e : MoonrakerError)
    (hopen : env.portOpen ip = true)
    (hsucc : ∃ k ∈ List.range API_SCAN_RETRY_COUNT,
      (env.api ip k).isOk = true)
    (hnd : ∀ k si, env.api ip k = .ok si →
      si.result.klippy_state ≠ "disconnected")
    (hflags : env.flags ip = .error e) :
    (∃ h, scan_host env ip now = some h ∧
      h.status = "online" ∧ h.device_status = "standby" ∧
      h.printer_state = some "standby" ∧ h.printer_flags = none) ∧
    ((check_host_status env ip).success = true ∧
     (check_host_status env ip).status = "online" ∧
     (check_host_status env ip).device_status = some "standby" ∧
     (check_host_status env ip).printer_flags = none) := by
  constructor
  · have base := scanHostAttempts_flags_failed env ip now e
      (List.range API_SCAN_RETRY_COUNT) hsucc hflags
    simpa [scan_host, hopen] using base
  · have base := checkHostAttempts_flags_failed env ip e
      (List.range API_SCAN_RETRY_COUNT) hsucc hnd hflags
    simpa [check_host_status, hopen] using base

/-- WITNESS for C6 at the concrete flags-failure environment. -/
theorem flags_failure_defaults_standby_witness :
    (∃ h, scan_host flagsFailEnv "10.0.0.7" "t1" = some h ∧
      h.status = "online" ∧ h.device_status = "standby" ∧
      h.printer_state = some "standby" ∧ h.printer_flags = none) ∧
    ((check_host_status flagsFailEnv "10.0.0.7").success = true ∧
     (check_host_status flagsFailEnv "10.0.0.7").status = "online" ∧
     (check_host_status flagsFailEnv "10.0.0.7").device_status =
       some "standby" ∧
     (check_host_status flagsFailEnv "10.0.0.7").printer_flags = none) :=
  flags_failure_defaults_standby flagsFailEnv "10.0.0.7" "t1"
    (.Network "timeout") rfl ⟨0, by decide, rfl⟩
    (fun k si hk => by cases hk; decide) rfl

/-- A network with mask length at most 31 covers at least two addresses. -/
theorem Ipv4Net.two_le_size (net : Ipv4Net) (hp : net.prefixLen ≤ 31) :
    2 ≤ net.size := by
  have h0 : 32 - net.prefixLen ≠ 0 := by omega
  unfold Ipv4Net.size
  exact Nat.one_lt_two_pow_iff.mpr h0

/-- The kept addresses of `generate_ip_range` are exactly the interval
strictly between the network and broadcast addresses (mask length at most
31). -/
theorem ipRangeAddrs_interior (net : Ipv4Net) (hp : net.prefixLen ≤ 31) :
    ipRangeAddrs net = List.range' (net.network + 1) (net.size - 2) := by
  have hsz : 2 ≤ net.size := net.two_le_size hp
  obtain ⟨m, hm⟩ : ∃ m, net.size = m + 2 := ⟨net.size - 2, by omega⟩
  have hb : net.broadcast = net.network + (m + 1) := by
    rw [Ipv4Net.broadcast]
    omega
  have hiter : net.iter = List.range' net.network (m + 2) := by
    rw [Ipv4Net.iter, List.range_eq_range', List.map_add_range',
      Nat.add_zero, hm]
  have hsplit : List.range' net.network (m + 2) =
      net.network ::
        (List.range' (net.network + 1) m ++ [net.network + 1 + m]) := by
    rw [show m + 2 = (m + 1) + 1 by rfl, List.range'_succ, List.range'_concat]
    norm_num
  have hmid : List.filter
      (fun a => decide (a ≠ net.network ∧ a ≠ net.broadcast))
      (List.range' (net.network + 1) m) =
      List.range' (net.network + 1) m := by
    apply List.filter_eq_self.mpr
    intro a ha
    rw [List.mem_range'] at ha
    obtain ⟨i, hi, rfl⟩ := ha
    rw [decide_eq_true_eq, hb]
    omega
  unfold ipRangeAddrs
  rw [hiter, hsplit, hm]
  simp only [List.filter_cons, List.filter_append, List.filter_singleton,
    hmid]
  have hlast : net.network + 1 + m = net.broadcast := by
    rw [hb]
    omega
  simp [hlast]

/-- COUNTEREXAMPLE to C3 as stated: `"192.168.1.5/32"` is a valid IPv4
CIDR string (accepted by `ipnetwork`); its single address is both the
network and the broadcast address, so the generated list is empty — but
the subnet size minus 2 is −1, not 0. -/
theorem generate_ip_range_slash32 :
    generate_ip_range
      (fun s => if s = "192.168.1.5/32" then
        .ok { ip := 3232235781, prefixLen := 32 } else .error "invalid")
      "192.168.1.5/32" = .ok [] ∧
    (([] : List String).length : ℤ) ≠
      ((Ipv4Net.mk 3232235781 32).size : ℤ) - 2 := by
  constructor
  · rfl
  · decide

/-- CLAIM C3 (amended to mask lengths at most 31; a `/32` network yields
the empty list while size − 2 is −1): for every valid IPv4 CIDR,
`generate_ip_range` succeeds with exactly the addresses strictly between
the network and broadcast addresses, a list of length subnet size − 2;
membership in the kept set excludes exactly the network and broadcast
addresses. -/
theorem generate_ip_range_excludes_network_broadcast
    (parse : String → Except String Ipv4Net) (cidr : String)
    (net : Ipv4Net) (hparse : parse cidr = .ok net)
    (hp : net.prefixLen ≤ 31) :
    generate_ip_range parse cidr =
      .ok ((List.range' (net.network + 1) (net.size - 2)).map ipv4ToString) ∧
    (((ipRangeAddrs net).map ipv4ToString).length : ℤ) =
      (net.size : ℤ) - 2 ∧
    ∀ a : Nat, a ∈ ipRangeAddrs net ↔
      a ∈ net.iter ∧ a ≠ net.network ∧ a ≠ net.broadcast := by
  have key := ipRangeAddrs_interior net hp
  have hsz : 2 ≤ net.size := net.two_le_size hp
  refine ⟨?_, ?_, ?_⟩
  · simp only [generate_ip_range, hparse, key]
  · rw [List.length_map, key, List.length_range', Int.natCast_sub hsz]
    norm_num
  · intro a
    simp [ipRangeAddrs, List.mem_filter]

/-- WITNESS for C3 at the concrete CIDR `"10.0.0.0/30"`: the two interior
addresses survive and the length is 4 − 2 = 2. -/
theorem generate_ip_range_excludes_network_broadcast_witness :
    generate_ip_range
      (fun s => if s = "10.0.0.0/30" then
        .ok { ip := 167772160, prefixLen := 30 } else .error "invalid")
      "10.0.0.0/30" =
      .ok ((List.range'
        ((Ipv4Net.mk 167772160 30).network + 1)
        ((Ipv4Net.mk 167772160 30).size - 2)).map ipv4ToString) ∧
    (((ipRangeAddrs (Ipv4Net.mk 167772160 30)).map ipv4ToString).length : ℤ) =
      ((Ipv4Net.mk 167772160 30).size : ℤ) - 2 ∧
    ∀ a : Nat, a ∈ ipRangeAddrs (Ipv4Net.mk 167772160 30) ↔
      a ∈ (Ipv4Net.mk 167772160 30).iter ∧
      a ≠ (Ipv4Net.mk 167772160 30).network ∧
      a ≠ (Ipv4Net.mk 167772160 30).broadcast :=
  generate_ip_range_excludes_network_broadcast _ "10.0.0.0/30"
    (Ipv4Net.mk 167772160 30) rfl (by decide)

/-- If some subnet of the list fails to parse, the expansion loop aborts
with an `InvalidSubnet` error. -/
theorem collectIps_invalid (parse : String → Except String Ipv4Net)
    (l : List SubnetConfig)
    (hbad : ∃ s ∈ l, ∃ e, parse s.range = .error e) :
    ∃ msg, collectIps parse l = .error (.InvalidSubnet msg) := by
  induction l with
  | nil =>
    obtain ⟨s, hs, _⟩ := hbad
    exact absurd hs (List.not_mem_nil s)
  | cons a rest ih =>
    cases hpa : parse a.range with
    | error e =>
      refine ⟨e, ?_⟩
      simp [collectIps, generate_ip_range, hpa]
    | ok net =>
      have hbad2 : ∃ s ∈ rest, ∃ e, parse s.range = .error e := by
        obtain ⟨s, hs, e, he⟩ := hbad
        rcases List.mem_cons.mp hs with h | h
        · subst h
          rw [hpa] at he
          exact Except.noConfusion he
        · exact ⟨s, h, e, he⟩
      obtain ⟨msg, hmsg⟩ := ih hbad2
      refine ⟨msg, ?_⟩
      simp [collectIps, generate_ip_range, hpa, hmsg]

/-- If every subnet of the list parses, the expansion loop succeeds and
its accumulated total is the sum of the per-subnet expansion lengths. -/
theorem collectIps_valid (parse : String → Except String Ipv4Net)
    (l : List SubnetConfig)
    (hok : ∀ s ∈ l, ∃ net, parse s.range = .ok net) :
    ∃ pairs, collectIps parse l =
      .ok ((l.map (fun s => expandedLen parse s)).sum, pairs) := by
  induction l with
  | nil => exact ⟨[], rfl⟩
  | cons a rest ih =>
    obtain ⟨net, hnet⟩ := hok a (List.mem_cons_self a rest)
    have hgen : generate_ip_range parse a.range =
        .ok ((ipRangeAddrs net).map ipv4ToString) := by
      simp [generate_ip_range, hnet]
    obtain ⟨pairs, hpairs⟩ :=
      ih (fun s hs => hok s (List.mem_cons_of_mem a hs))
    refine ⟨((ipRangeAddrs net).map ipv4ToString).map
      (fun ip => (ip, a.range)) ++ pairs, ?_⟩
    simp [collectIps, hgen, hpairs, expandedLen]

/-- Phase 2 counts exactly the records it keeps: the running
`online_hosts` counter equals the length of the collected host list. -/
theorem apiPhase_count (env : ProbeEnv) (now : String)
    (pairs : List (String × String)) (ips : List String) :
    (apiPhase env now pairs ips).2 = (apiPhase env now pairs ips).1.length := by
  induction ips with
  | nil => rfl
  | cons ip rest ih =>
    cases h : scan_host env ip now <;> simp [apiPhase, h, ih]

/-- CLAIM C4: when any enabled subnet fails to parse, `scan_network`
aborts the whole call with an `InvalidSubnet` error — even if other
enabled subnets are valid — and the outcome is independent of the probe
oracles (no host is probed, no partial result escapes). -/
theorem scan_network_invalid_subnet_aborts
    (parse : String → Except String Ipv4Net) (env env2 : ProbeEnv)
    (now now2 : String) (subnets : List SubnetConfig)
    (hbad : ∃ s ∈ subnets, s.enabled = true ∧
      ∃ e, parse s.range = .error e) :
    (∃ msg, scan_network parse env now subnets =
      .error (.InvalidSubnet msg)) ∧
    scan_network parse env now subnets =
      scan_network parse env2 now2 subnets := by
  obtain ⟨s, hs, hen, e, he⟩ := hbad
  have hsmem : s ∈ subnets.filter (fun s => s.enabled) :=
    List.mem_filter.mpr ⟨hs, hen⟩
  have hne : (subnets.filter (fun s => s.enabled)).isEmpty = false := by
    cases hemp : (subnets.filter (fun s => s.enabled)).isEmpty
    · rfl
    · rw [List.isEmpty_iff] at hemp
      rw [hemp] at hsmem
      exact absurd hsmem (List.not_mem_nil s)
  obtain ⟨msg, hmsg⟩ := collectIps_invalid parse _ ⟨s, hsmem, e, he⟩
  constructor
  · exact ⟨msg, by simp [scan_network, hne, hmsg]⟩
  · simp [scan_network, hne, hmsg]

/-- WITNESS for C4: a mixed valid/invalid request fails identically under
an all-dead and an all-live probe environment. -/
theorem scan_network_invalid_subnet_aborts_witness :
    (∃ msg, scan_network cidrParse deadEnv "t2" subnetsWithBad =
      .error (.InvalidSubnet msg)) ∧
    scan_network cidrParse deadEnv "t2" subnetsWithBad =
      scan_network cidrParse liveEnv "t3" subnetsWithBad :=
  scan_network_invalid_subnet_aborts cidrParse deadEnv liveEnv "t2" "t3"
    subnetsWithBad
    ⟨{ id := "b", range := "bogus/99", name := "bad", enabled := true },
      by decide, rfl, "invalid address syntax", rfl⟩

/-- CLAIM C8: over valid enabled subnets `scan_network` always returns
`Ok`: progress is 100, the online count equals the number of records in
the hosts list, and the total count is the number of expanded candidate
addresses across all enabled subnets — whatever the probe oracles do, so
a failing host merely drops out of the hosts list. -/
theorem scan_network_aggregates (parse : String → Except String Ipv4Net)
    (env : ProbeEnv) (now : String) (subnets : List SubnetConfig)
    (hok : ∀ s ∈ subnets, s.enabled = true →
      ∃ net, parse s.range = .ok net) :
    ∃ r, scan_network parse env now subnets = .ok r ∧
      r.scan_progress = 100 ∧
      r.online_hosts = r.hosts.length ∧
      r.total_hosts = ((subnets.filter (fun s => s.enabled)).map
        (fun s => expandedLen parse s)).sum := by
  cases hemp : (subnets.filter (fun s => s.enabled)).isEmpty with
  | true =>
    have hnil : subnets.filter (fun s => s.enabled) = [] :=
      List.isEmpty_iff.mp hemp
    refine ⟨{ hosts := [], total_hosts := 0, online_hosts := 0,
              scan_progress := 100 }, ?_, rfl, rfl, ?_⟩
    · simp [scan_network, hemp]
    · rw [hnil]
      rfl
  | false =>
    have hok2 : ∀ s ∈ subnets.filter (fun s => s.enabled),
        ∃ net, parse s.range = .ok net := by
      intro s hs
      have hm := List.mem_filter.mp hs
      exact hok s hm.1 hm.2
    obtain ⟨pairs, hcol⟩ := collectIps_valid parse _ hok2
    refine ⟨{
        hosts := (apiPhase env now pairs
          ((pairs.map Prod.fst).dedup.filter (fun ip => env.portOpen ip))).1
        total_hosts := ((subnets.filter (fun s => s.enabled)).map
          (fun s => expandedLen parse s)).sum
        online_hosts := (apiPhase env now pairs
          ((pairs.map Prod.fst).dedup.filter (fun ip => env.portOpen ip))).2
        scan_progress := 100 }, ?_, rfl, ?_, rfl⟩
    · simp [scan_network, hemp, hcol]
    · exact apiPhase_count env now pairs _

/-- WITNESS for C8 at a concrete request under the all-live environment. -/
theorem scan_network_aggregates_witness :
    ∃ r, scan_network cidrParse liveEnv "t4" goodSubnets = .ok r ∧
      r.scan_progress = 100 ∧
      r.online_hosts = r.hosts.length ∧
      r.total_hosts = ((goodSubnets.filter (fun s => s.enabled)).map
        (fun s => expandedLen cidrParse s)).sum :=
  scan_network_aggregates cidrParse liveEnv "t4" goodSubnets
    (by
      intro s hs hen
      rcases List.mem_cons.mp hs with h | h
      · subst h
        exact ⟨{ ip := 167772160, prefixLen := 30 }, rfl⟩
      · rcases List.mem_cons.mp h with h2 | h2
        · subst h2
          exact absurd hen (by decide)
        · exact absurd h2 (List.not_mem_nil s))

/-- CLAIM C10: `update_online` with an absent flag set leaves
`device_status` and `printer_state` at their previous (possibly stale)
values, while still marking the host online, storing the new version and
Klippy state, stamping `last_seen` and resetting the failure counter. -/
theorem update_online_none_flags_frame (h : HostInfo) (v ks now : String) :
    (h.update_online v ks none now).device_status = h.device_status ∧
    (h.update_online v ks none now).printer_state = h.printer_state ∧
    (h.update_online v ks none now).status = "online" ∧
    (h.update_online v ks none now).moonraker_version = some v ∧
    (h.update_online v ks none now).klippy_state = some ks ∧
    (h.update_online v ks none now).last_seen = some now ∧
    (h.update_online v ks none now).failed_attempts = some 0 := by
  simp [HostInfo.update_online]

end MHS
